import Mathlib

/-!
Verification of the daavfx_chartingfx charting backend.

The repository contains two Tauri applications sharing one domain:

* `src/src-tauri/src/` — the "tauri app": CSV import over `BufRead::lines`
  plus a mutex-guarded replay engine (`ReplayState`, `load_replay_session`,
  `start_replay`, `pause_replay`, `stop_replay`, `step_forward`,
  `step_backward`, `seek_to_index`, `set_replay_speed`, `load_ohlcv_data`).
* `src/src/` — the "src app": CSV import through the `csv` crate,
  `load_ohlcv_data` and `get_data_window` over the `daavfx_core` cache.

This file shallowly embeds those commands.  Modelling conventions:

* Rust `usize` indices become `Nat`; `usize` addition wraps modulo `2 ^ 64`
  in release builds, which is modelled explicitly where it occurs
  (`step_forward`); `usize::saturating_sub` is exactly `Nat` subtraction.
* Rust `f64` price/speed/progress values and `rust_decimal::Decimal`
  values are modelled as exact rationals (`ℚ`).  Every concrete value used
  in a theorem below is exactly representable in both, and every
  inequality proved has a gap far exceeding any rounding of small
  integer ratios, so the identification is faithful for these statements.
* String serialisation of prices in the response structs is not modelled:
  the response carries the numeric value whose decimal rendering the Rust
  code would return.
* The `daavfx_core` crate (series cache, store) is not part of this
  repository's sources; where a command calls into it the call is modelled
  from the spec and marked `Modelled from the spec:` in its doc comment.
* Rust `Vec` indexing / slicing out of bounds is a panic; panics are an
  explicit `CmdResult.panicked` outcome, never a value.
-/

namespace ChartingFX

/-! ## Numeric field parsing

Models of Rust `str::parse` for the field types appearing in the CSV
importers.  Both importers split a row and parse fields; the tauri app
parses prices as `f64`, the src app as `Decimal`.  For the plain decimal
literals these commands are specified over (optional sign, digits,
optional fraction — no exponent, no inf/nan), both Rust parsers accept
exactly the grammar below and produce the value modelled here. -/

/-- Numeric value of a digit string, most significant digit first. -/
def digitsVal (cs : List Char) : Nat :=
  cs.foldl (fun n c => n * 10 + (c.toNat - 48)) 0

/-- Parse an unsigned run of decimal digits; fails when empty or when a
non-digit occurs (Rust integer parsing digit-run rule). -/
def parseNat? (cs : List Char) : Option Nat :=
  if cs.isEmpty then none
  else if cs.all Char.isDigit then some (digitsVal cs) else none

/-- Model of Rust `str::parse::<i64>`: optional sign, one or more digits,
and the value must fit in `i64`. -/
def parseI64? (s : String) : Option Int :=
  let cs := s.toList
  let signDigits : Bool × List Char :=
    match cs with
    | '-' :: rest => (true, rest)
    | '+' :: rest => (false, rest)
    | _ => (false, cs)
  match parseNat? signDigits.2 with
  | none => none
  | some n =>
    let v : Int := if signDigits.1 then -(n : Int) else (n : Int)
    if -(2 ^ 63) ≤ v ∧ v < 2 ^ 63 then some v else none

/-- Model of Rust `str::parse::<f64>` / `str::parse::<Decimal>` on plain
decimal literals: optional sign, then digits with an optional fractional
part, at least one digit in total.  Exponent and inf/nan forms accepted
by `f64` are outside the inputs these commands are specified over. -/
def parseDec? (s : String) : Option ℚ :=
  let cs := s.toList
  let signRest : Bool × List Char :=
    match cs with
    | '-' :: rest => (true, rest)
    | '+' :: rest => (false, rest)
    | _ => (false, cs)
  let intPart := signRest.2.takeWhile Char.isDigit
  let afterInt := signRest.2.drop intPart.length
  match afterInt with
  | [] =>
    if intPart.isEmpty then none
    else
      let q : ℚ := (digitsVal intPart : ℚ)
      some (if signRest.1 then -q else q)
  | '.' :: frac =>
    if frac.all Char.isDigit && !(intPart.isEmpty && frac.isEmpty) then
      let q : ℚ := (digitsVal intPart : ℚ) + (digitsVal frac : ℚ) / ((10 : ℚ) ^ frac.length)
      some (if signRest.1 then -q else q)
    else none
  | _ => none

/-! ## Data model -/

/-- One OHLCV candle (`daavfx_core::OHLCV`): epoch-second timestamp plus
open/high/low/close prices and volume.  The tauri app's importer writes
the integer literal `0` into `volume`; both apps' numeric fields are
modelled as `ℚ` (see the header comment). -/
structure OHLCV where
  time : Int
  «open» : ℚ
  high : ℚ
  low : ℚ
  close : ℚ
  volume : ℚ
deriving DecidableEq, Repr

/-- Modelled from the spec: `TimeFrame` of `daavfx_core` (not under the
repository's `src/`) is a closed enumeration of bar durations
{M1, M5, M15, M30, H1, H4, D1, W1}. -/
inductive TimeFrame where
  | M1 | M5 | M15 | M30 | H1 | H4 | D1 | W1
deriving DecidableEq, Repr

/-- Modelled from the spec: `TimeFrame::from_str` is a case-sensitive
match against the canonical labels, `None` on anything else. -/
def TimeFrame.from_str (s : String) : Option TimeFrame :=
  match s with
  | "M1" => some .M1
  | "M5" => some .M5
  | "M15" => some .M15
  | "M30" => some .M30
  | "H1" => some .H1
  | "H4" => some .H4
  | "D1" => some .D1
  | "W1" => some .W1
  | _ => none

/-- Outcome of one Tauri command: `Ok`, `Err(msg)`, or a Rust panic
(out-of-bounds indexing/slicing).  A panic is not a return value; it is
kept as a third outcome so that theorems can talk about it. -/
inductive CmdResult (α : Type) where
  | ok (val : α)
  | err (msg : String)
  | panicked
deriving DecidableEq, Repr

/-- Splitting a character list at a separator, keeping empty pieces:
the recursion underlying `splitComma`. -/
def splitCharAux (sep : Char) : List Char → List Char → List (List Char)
  | [], acc => [acc.reverse]
  | c :: rest, acc =>
    if c = sep then acc.reverse :: splitCharAux sep rest []
    else splitCharAux sep rest (c :: acc)

/-- Model of Rust `str::split(',')` (and of the comma-delimited record
fields the `csv` crate produces for unquoted input): split at every
comma, keeping empty pieces, so `"a,b,"` gives `["a", "b", ""]` and the
empty string gives `[""]`. -/
def splitComma (s : String) : List String :=
  (splitCharAux ',' s.toList []).map (fun cs => String.mk cs)

/-! ## CSV import — tauri app (`src/src-tauri/src/commands.rs` 30-69) -/

/-- Body of the tauri `import_csv_data` line loop: the line is split on
commas; a row with at least six fields has `time` parsed as `i64` and
open/high/low/close as `f64` through nested `if let`, any failure
skipping the row; the sixth field is ignored and `volume` is set to `0`. -/
def rowToCandleTauri (parts : List String) : Option OHLCV :=
  match parts with
  | p0 :: p1 :: p2 :: p3 :: p4 :: _ :: _ =>
    match parseI64? p0 with
    | none => none
    | some time =>
      match parseDec? p1 with
      | none => none
      | some o =>
        match parseDec? p2 with
        | none => none
        | some h =>
          match parseDec? p3 with
          | none => none
          | some l =>
            match parseDec? p4 with
            | none => none
            | some c =>
              some { time := time, «open» := o, high := h, low := l, close := c, volume := 0 }
  | _ => none

/-- The tauri `import_csv_data` over the file's lines: every line is
processed independently; rows that fail to parse are skipped. The
command returns `Ok(data.len())`, the length of this list. File-open
and line-read I/O errors are outside the model (the lines are given). -/
def import_csv_tauri (lines : List String) : List OHLCV :=
  lines.filterMap (fun l => rowToCandleTauri (splitComma l))

/-! ## CSV import — src app (`src/src/commands.rs` 89-136) -/

/-- Body of the src `import_csv_data` record loop: a record with fewer
than six fields is skipped (`Ok none`); otherwise `time` and the four
prices abort the whole import on a parse failure (`map_err(...)?`),
while a bad `volume` falls back to `Decimal::ZERO` (`unwrap_or`). -/
def rowToCandleSrc (parts : List String) : Except String (Option OHLCV) :=
  match parts with
  | p0 :: p1 :: p2 :: p3 :: p4 :: p5 :: _ =>
    match parseI64? p0 with
    | none => .error ("Invalid time")
    | some time =>
      match parseDec? p1 with
      | none => .error ("Invalid open")
      | some o =>
        match parseDec? p2 with
        | none => .error ("Invalid high")
        | some h =>
          match parseDec? p3 with
          | none => .error ("Invalid low")
          | some l =>
            match parseDec? p4 with
            | none => .error ("Invalid close")
            | some c =>
              .ok (some { time := time, «open» := o, high := h, low := l, close := c,
                          volume := (parseDec? p5).getD 0 })
  | _ => .ok none

/-- Record iteration of the src importer.  `csv::Reader` with default
settings requires every record to have the same field count as the
header and yields an error (aborting the import via `?`) otherwise; the
exact crate message is abbreviated here, no theorem depends on it.
Records are comma-split; quoting does not arise for the inputs these
commands are specified over. -/
def import_csv_src_go (hlen : Nat) : List String → Except String (List OHLCV)
  | [] => .ok []
  | line :: rest =>
    let parts := splitComma line
    if parts.length ≠ hlen then .error ("CSV error: unequal lengths")
    else
      match rowToCandleSrc parts with
      | .error e => .error e
      | .ok none => import_csv_src_go hlen rest
      | .ok (some c) => (import_csv_src_go hlen rest).map (c :: ·)

/-- The src `import_csv_data`: the timeframe label is parsed first
(`Invalid timeframe` error); `csv::Reader::from_path` has
`has_headers = true` by default, so the FIRST line of the file is
consumed as a header and never yields a candle; the remaining lines run
through `import_csv_src_go`.  The returned number is
`ImportResult.candles_imported`; the database save is modelled as
succeeding. -/
def import_csv_src (timeframe : String) (lines : List String) : Except String Nat :=
  match TimeFrame.from_str timeframe with
  | none => .error ("Invalid timeframe: " ++ timeframe)
  | some _ =>
    match lines with
    | [] => .ok 0
    | header :: rest =>
      (import_csv_src_go (splitComma header).length rest).map List.length

/-! ## Series loading (`load_ohlcv_data` in both apps, `get_data_window`)

Modelled from the spec: the `daavfx_core` store/cache behind these
commands is not under the repository's `src/`.  The tauri app's core is
a plain per-symbol lookup (`String → Option (Vec OHLCV)`); the src app's
core resolves a `(symbol, timeframe)` pair through cache/aggregation and
fails with `SymbolNotFound` exactly when the symbol has no series. -/

/-- Modelled from the spec: `daavfx_core` `get_ohlcv(symbol, tf)` of the
src app — yields the resolved series, or the `SymbolNotFound` typed
error when the store holds nothing for the symbol. -/
def core_get_ohlcv (core : String → TimeFrame → Option (List OHLCV))
    (symbol : String) (tf : TimeFrame) : Except String (List OHLCV) :=
  match core symbol tf with
  | some d => .ok d
  | none => .error ("SymbolNotFound")

/-- The tauri app's `load_ohlcv_data` (`src/src-tauri/src/commands.rs`
72-92): a missing symbol is converted to `Ok(Vec::new())`, an empty
response, not an error. -/
def load_ohlcv_data_tauri (core : String → Option (List OHLCV))
    (symbol : String) : CmdResult (List OHLCV) :=
  match core symbol with
  | none => .ok []
  | some d => .ok d

/-- The src app's `load_ohlcv_data` (`src/src/commands.rs` 14-33): the
timeframe label is parsed (`Invalid timeframe: ...` error), then the
core lookup's error is surfaced via `map_err`. -/
def load_ohlcv_data_src (core : String → TimeFrame → Option (List OHLCV))
    (symbol timeframe : String) : CmdResult (List OHLCV) :=
  match TimeFrame.from_str timeframe with
  | none => .err ("Invalid timeframe: " ++ timeframe)
  | some tf =>
    match core_get_ohlcv core symbol tf with
    | .error e => .err e
    | .ok d => .ok d

/-- Rust slice `&data[a..b]` after its bounds checks have passed:
the elements from position `a` (inclusive) to `b` (exclusive). -/
def rustSlice {α : Type} (xs : List α) (a b : Nat) : List α :=
  (xs.drop a).take (b - a)

/-- The src app's `get_data_window` (`src/src/commands.rs` 37-58): after
timeframe parse and core lookup, it evaluates `&data[start_idx ..
end_idx.min(data.len())]`.  The upper bound is clamped to the length,
but Rust panics on a slice whose start exceeds its end, so any
`start_idx` above the clamped end is a panic, not an error return. -/
def get_data_window (core : String → TimeFrame → Option (List OHLCV))
    (symbol timeframe : String) (start_idx end_idx : Nat) : CmdResult (List OHLCV) :=
  match TimeFrame.from_str timeframe with
  | none => .err ("Invalid timeframe: " ++ timeframe)
  | some tf =>
    match core_get_ohlcv core symbol tf with
    | .error e => .err e
    | .ok data =>
      let b := min end_idx data.length
      if start_idx ≤ b then .ok (rustSlice data start_idx b) else .panicked

/-! ## Replay engine (`src/src-tauri/src/main.rs` 20-41,
`src/src-tauri/src/commands.rs` 105-254)

Each command locks the single mutex-guarded `ReplayState`, mutates it in
place and returns; the model threads the state explicitly.  Rust `usize`
addition wraps modulo `2 ^ 64` in release builds (debug builds panic on
overflow; every theorem below only exercises it where no overflow
occurs, so the two build modes agree there). -/

/-- Wrap-around bound of 64-bit `usize` arithmetic. -/
def USIZE : Nat := 2 ^ 64

/-- The single replay session (`ReplayState` in `main.rs`). -/
structure ReplayState where
  symbol : String
  timeframe : TimeFrame
  data : List OHLCV
  current_index : Nat
  speed : ℚ
  is_playing : Bool
deriving DecidableEq, Repr

/-- The `Default` impl of `ReplayState` in `main.rs`. -/
def ReplayState.init : ReplayState :=
  { symbol := "", timeframe := .H1, data := [], current_index := 0,
    speed := 1, is_playing := false }

/-- The `ReplayInfo` snapshot returned by `load_replay_session`
(`src/src-tauri/src/replay.rs` 5-15). -/
structure ReplayInfo where
  total_candles : Nat
  current_index : Nat
  start_time : Int
  end_time : Int
  symbol : String
  timeframe : String
  is_playing : Bool
  speed : ℚ
deriving DecidableEq, Repr

/-- The `ReplayUpdate` returned by step/seek
(`src/src-tauri/src/replay.rs` 17-27); prices are serialized as strings
in Rust and carried as their numeric values here, and `progress` is the
`f64` quotient `current_index / total_candles`, modelled exactly. -/
structure ReplayUpdate where
  current_index : Nat
  total_candles : Nat
  time : Int
  «open» : ℚ
  high : ℚ
  low : ℚ
  close : ℚ
  progress : ℚ
deriving DecidableEq, Repr

/-- `load_replay_session` (`commands.rs` 105-133): a missing symbol
returns `Err` before touching the session; otherwise the session is
overwritten (symbol, data, index 0, speed 1.0, paused — the state's
`timeframe` field is NOT assigned), and only then the reply is built,
indexing `data[0]` and `data[len - 1]` — which panics on an empty
stored series, after the session has already been overwritten. -/
def load_replay_session (core : String → Option (List OHLCV)) (st : ReplayState)
    (symbol timeframe : String) : CmdResult ReplayInfo × ReplayState :=
  match core symbol with
  | none => (.err ("No data found"), st)
  | some data =>
    let st' : ReplayState :=
      { st with symbol := symbol, data := data, current_index := 0,
                speed := 1, is_playing := false }
    match data with
    | [] => (.panicked, st')
    | c0 :: rest =>
      (.ok { total_candles := (c0 :: rest).length, current_index := 0,
             start_time := c0.time,
             end_time := ((c0 :: rest).getLast (List.cons_ne_nil c0 rest)).time,
             symbol := symbol, timeframe := timeframe,
             is_playing := false, speed := 1 }, st')

/-- `start_replay` (`commands.rs` 136-143). -/
def start_replay (st : ReplayState) : CmdResult Unit × ReplayState :=
  if st.data.isEmpty then (.err ("No replay session loaded"), st)
  else (.ok (), { st with is_playing := true })

/-- `pause_replay` (`commands.rs` 146-150). -/
def pause_replay (st : ReplayState) : CmdResult Unit × ReplayState :=
  (.ok (), { st with is_playing := false })

/-- `stop_replay` (`commands.rs` 152-158). -/
def stop_replay (st : ReplayState) : CmdResult Unit × ReplayState :=
  (.ok (), { st with is_playing := false, current_index := 0 })

/-- `step_forward` (`commands.rs` 161-187): `steps` defaults to 1; on an
empty session it errs without mutating; otherwise
`current_index = (current_index + steps).min(len - 1)` (the `usize` sum
wrapping modulo `2 ^ 64`), autoplay is interrupted, and the update
carries the candle at the new index with `progress = index / len`.
The `getD` fallback is never taken: the new index is `< len`. -/
def step_forward (st : ReplayState) (steps : Option Nat) :
    CmdResult ReplayUpdate × ReplayState :=
  let k := steps.getD 1
  match st.data with
  | [] => (.err ("No replay session"), st)
  | c :: cs =>
    let n := (c :: cs).length
    let idx := min ((st.current_index + k) % USIZE) (n - 1)
    let st' := { st with current_index := idx, is_playing := false }
    let candle := (c :: cs).getD idx c
    (.ok { current_index := idx, total_candles := n, time := candle.time,
           «open» := candle.«open», high := candle.high, low := candle.low,
           close := candle.close,
           progress := (idx : ℚ) / (n : ℚ) }, st')

/-- `step_backward` (`commands.rs` 189-216): like `step_forward` with
`current_index.saturating_sub(steps)`, which is exactly `Nat`
subtraction. -/
def step_backward (st : ReplayState) (steps : Option Nat) :
    CmdResult ReplayUpdate × ReplayState :=
  let k := steps.getD 1
  match st.data with
  | [] => (.err ("No replay session"), st)
  | c :: cs =>
    let n := (c :: cs).length
    let idx := st.current_index - k
    let st' := { st with current_index := idx, is_playing := false }
    let candle := (c :: cs).getD idx c
    (.ok { current_index := idx, total_candles := n, time := candle.time,
           «open» := candle.«open», high := candle.high, low := candle.low,
           close := candle.close,
           progress := (idx : ℚ) / (n : ℚ) }, st')

/-- `set_replay_speed` (`commands.rs` 219-226): `speed.clamp(0.1, 10.0)`,
never failing. -/
def set_replay_speed (st : ReplayState) (speed : ℚ) : CmdResult Unit × ReplayState :=
  (.ok (), { st with speed := min (max speed (1 / 10)) 10 })

/-- `seek_to_index` (`commands.rs` 229-254): `index.min(len - 1)`, same
side effects and update as stepping. -/
def seek_to_index (st : ReplayState) (index : Nat) :
    CmdResult ReplayUpdate × ReplayState :=
  match st.data with
  | [] => (.err ("No replay session"), st)
  | c :: cs =>
    let n := (c :: cs).length
    let idx := min index (n - 1)
    let st' := { st with current_index := idx, is_playing := false }
    let candle := (c :: cs).getD idx c
    (.ok { current_index := idx, total_candles := n, time := candle.time,
           «open» := candle.«open», high := candle.high, low := candle.low,
           close := candle.close,
           progress := (idx : ℚ) / (n : ℚ) }, st')

/-- Cursor validity invariant of the replay state: in a loaded session
the cursor denotes a candle, and an unloaded session has cursor 0. -/
def ReplayInv (st : ReplayState) : Prop :=
  (st.data ≠ [] → st.current_index < st.data.length) ∧
  (st.data = [] → st.current_index = 0)

instance (st : ReplayState) : Decidable (ReplayInv st) := by
  unfold ReplayInv; infer_instance

/-! ## Concrete fixtures used by witnesses and counterexamples -/

/-- A series of `n` distinct candles spaced one minute apart. -/
def mkSeries (n : Nat) : List OHLCV :=
  (List.range n).map (fun i =>
    { time := 60 * (i : Int), «open» := 1, high := 2, low := 1,
      close := 2, volume := 10 })

/-- A freshly loaded replay session over the given candles. -/
def replayOn (data : List OHLCV) : ReplayState :=
  { symbol := "EURUSD", timeframe := .H1, data := data, current_index := 0,
    speed := 1, is_playing := false }

/-- A tauri-app core that stores an EMPTY series for "EURUSD". -/
def emptyStore : String → Option (List OHLCV) :=
  fun s => if s = "EURUSD" then some [] else none

/-- A core with no data at all. -/
def noStore : String → Option (List OHLCV) := fun _ => none

/-- A src-app core with no data at all. -/
def noStore2 : String → TimeFrame → Option (List OHLCV) := fun _ _ => none

/-- A src-app core storing a 3-candle H1 series for "EURUSD". -/
def core3 : String → TimeFrame → Option (List OHLCV) :=
  fun s tf => if s = "EURUSD" ∧ tf = .H1 then some (mkSeries 3) else none

/-- The 3-row scenario file: comma-separated rows with a bad `open`
field in the second row. -/
def csvLines3 : List String :=
  ["1,1.0,2.0,0.5,1.5,100", "2,bad,2.0,0.5,1.5,100", "3,1.0,2.0,0.5,1.5,100"]

/-- Cursor position carried by a successful `ReplayUpdate`. -/
def updIndex? : CmdResult ReplayUpdate → Option Nat
  | .ok u => some u.current_index
  | _ => none

/-- Progress value carried by a successful `ReplayUpdate`. -/
def updProgress? : CmdResult ReplayUpdate → Option ℚ
  | .ok u => some u.progress
  | _ => none

/-! ## Theorems -/

/-- Claim C1, counterexample: seeking a huge index on a 100-candle series
does clamp the cursor to index 99, but the returned progress is
`99 / 100` — the code divides by `len`, not `len - 1` — which is
strictly below the `99 / 99 = 1.0` the claim requires. -/
theorem C1_cex :
    updIndex? ((seek_to_index (replayOn (mkSeries 100)) 1000000).1) = some 99 ∧
    updProgress? ((seek_to_index (replayOn (mkSeries 100)) 1000000).1) =
      some (((99 : Nat) : ℚ) / ((100 : Nat) : ℚ)) ∧
    ((99 : Nat) : ℚ) / ((100 : Nat) : ℚ) < ((99 : Nat) : ℚ) / ((99 : Nat) : ℚ) := by
  refine ⟨by decide, rfl, by norm_num⟩

/-- Claim C1, amended: on a loaded session with an in-range cursor,
`step_forward`, `step_backward` and `seek_to_index` clamp the cursor to
`[0, n-1]` and return `progress = current_index / n` (the candle count,
not `n - 1`); the seek lands exactly on `min index (n - 1)`. -/
theorem C1_clamp (st : ReplayState) (steps : Option Nat) (index : Nat)
    (h : st.data ≠ []) (hcur : st.current_index < st.data.length) :
    (∃ u : ReplayUpdate, (step_forward st steps).1 = .ok u ∧
        u.current_index ≤ st.data.length - 1 ∧
        u.progress = (u.current_index : ℚ) / (st.data.length : ℚ)) ∧
    (∃ u : ReplayUpdate, (step_backward st steps).1 = .ok u ∧
        u.current_index ≤ st.data.length - 1 ∧
        u.progress = (u.current_index : ℚ) / (st.data.length : ℚ)) ∧
    (∃ u : ReplayUpdate, (seek_to_index st index).1 = .ok u ∧
        u.current_index = min index (st.data.length - 1) ∧
        u.progress = (u.current_index : ℚ) / (st.data.length : ℚ)) := by
  obtain ⟨sym, tf, data, i, sp, play⟩ := st
  rcases data with _ | ⟨c, cs⟩
  · exact absurd rfl h
  · have hcur' : i < (c :: cs).length := hcur
    refine ⟨⟨_, rfl, ?_, ?_⟩, ⟨_, rfl, ?_, ?_⟩, ⟨_, rfl, ?_, ?_⟩⟩
    · exact Nat.min_le_right _ _
    · rfl
    · show i - steps.getD 1 ≤ (c :: cs).length - 1
      omega
    · rfl
    · rfl
    · rfl

/-- Claim C1, witness: `C1_clamp` on a fresh 100-candle session with
`steps = 5` and seek index 1000000. -/
theorem C1_witness :
    (∃ u : ReplayUpdate, (step_forward (replayOn (mkSeries 100)) (some 5)).1 = .ok u ∧
        u.current_index ≤ (replayOn (mkSeries 100)).data.length - 1 ∧
        u.progress = (u.current_index : ℚ) / ((replayOn (mkSeries 100)).data.length : ℚ)) ∧
    (∃ u : ReplayUpdate, (step_backward (replayOn (mkSeries 100)) (some 5)).1 = .ok u ∧
        u.current_index ≤ (replayOn (mkSeries 100)).data.length - 1 ∧
        u.progress = (u.current_index : ℚ) / ((replayOn (mkSeries 100)).data.length : ℚ)) ∧
    (∃ u : ReplayUpdate, (seek_to_index (replayOn (mkSeries 100)) 1000000).1 = .ok u ∧
        u.current_index = min 1000000 ((replayOn (mkSeries 100)).data.length - 1) ∧
        u.progress = (u.current_index : ℚ) / ((replayOn (mkSeries 100)).data.length : ℚ)) :=
  C1_clamp (replayOn (mkSeries 100)) (some 5) 1000000 (by decide) (by decide)

/-- Claim C2: on a stored-but-EMPTY series, `load_replay_session` does
not return the typed `EmptyReplaySession` error the spec requires — it
first overwrites the session (the symbol visibly changes from `""` to
`"EURUSD"`) and then panics indexing `replay.data[0]`. -/
theorem C2_panic :
    (load_replay_session emptyStore ReplayState.init ("EURUSD") ("H1")).1 = .panicked ∧
    (load_replay_session emptyStore ReplayState.init ("EURUSD") ("H1")).2.symbol = "EURUSD" ∧
    ReplayState.init.symbol = "" ∧
    emptyStore ("EURUSD") = some [] := ⟨rfl, rfl, rfl, rfl⟩

/-- Claim C3, counterexample: on the 3-row scenario file with a bad
`open` in row two, the src app's import aborts with `Invalid open`
(row one having been consumed as a CSV header) instead of returning
count 2 — only the tauri app's import returns 2. -/
theorem C3_cex :
    import_csv_src ("H1") csvLines3 = .error ("Invalid open") ∧
    (import_csv_tauri csvLines3).length = 2 := ⟨rfl, by decide⟩

/-- Claim C3, amended: the tauri app's CSV import skips any malformed
row and imports the remaining rows exactly as if the bad row were not
present. -/
theorem C3_skip (pre post : List String) (bad : String)
    (hbad : rowToCandleTauri (splitComma bad) = none) :
    import_csv_tauri (pre ++ bad :: post) = import_csv_tauri (pre ++ post) := by
  unfold import_csv_tauri
  simp only [List.filterMap_append, List.filterMap_cons, hbad]

/-- Claim C3, witness: `C3_skip` on the scenario file's malformed middle
row. -/
theorem C3_witness :
    import_csv_tauri (["1,1.0,2.0,0.5,1.5,100"] ++ "2,bad,2.0,0.5,1.5,100" ::
        ["3,1.0,2.0,0.5,1.5,100"]) =
      import_csv_tauri (["1,1.0,2.0,0.5,1.5,100"] ++ ["3,1.0,2.0,0.5,1.5,100"]) :=
  C3_skip _ _ _ (by decide)

/-- Claim C4, counterexample: a well-formed row whose sixth field parses
to 7 imports, through the tauri app, a candle whose volume is 0, not the
decimal value of the sixth field. -/
theorem C4_cex :
    rowToCandleTauri (splitComma ("100,1,2,3,4,7")) =
      some { time := 100, «open» := 1, high := 2, low := 3, close := 4, volume := 0 } ∧
    parseDec? ("7") = some 7 ∧ (0 : ℚ) < 7 := ⟨by decide, by decide, by norm_num⟩

/-- Claim C4, amended: for every row whose six fields parse, both
importers take time and open/high/low/close verbatim from fields one to
five; the src importer takes volume from field six, while the tauri
importer ignores field six and stores volume 0. -/
theorem C4_rows (s0 s1 s2 s3 s4 s5 : String) (rest : List String)
    (t : Int) (qo qh ql qc qv : ℚ)
    (h0 : parseI64? s0 = some t) (h1 : parseDec? s1 = some qo)
    (h2 : parseDec? s2 = some qh) (h3 : parseDec? s3 = some ql)
    (h4 : parseDec? s4 = some qc) (h5 : parseDec? s5 = some qv) :
    rowToCandleTauri (s0 :: s1 :: s2 :: s3 :: s4 :: s5 :: rest) =
      some { time := t, «open» := qo, high := qh, low := ql, close := qc, volume := 0 } ∧
    rowToCandleSrc (s0 :: s1 :: s2 :: s3 :: s4 :: s5 :: rest) =
      .ok (some { time := t, «open» := qo, high := qh, low := ql, close := qc, volume := qv }) := by
  constructor
  · simp only [rowToCandleTauri, h0, h1, h2, h3, h4]
  · simp only [rowToCandleSrc, h0, h1, h2, h3, h4, h5, Option.getD_some]

/-- Claim C4, witness: `C4_rows` on the concrete row `50,2,3,1,2,9`. -/
theorem C4_witness :
    rowToCandleTauri (splitComma ("50,2,3,1,2,9")) =
      some { time := 50, «open» := 2, high := 3, low := 1, close := 2, volume := 0 } ∧
    rowToCandleSrc (splitComma ("50,2,3,1,2,9")) =
      .ok (some { time := 50, «open» := 2, high := 3, low := 1, close := 2, volume := 9 }) :=
  C4_rows ("50") ("2") ("3") ("1") ("2") ("9") [] 50 2 3 1 2 9
    (by decide) (by decide) (by decide) (by decide) (by decide) (by decide)

/-- Claim C5, counterexample: the tauri app's `load_ohlcv_data` on a
symbol with no stored data returns `Ok` with an empty candle list — the
exact default-value conversion the claim rules out — instead of a typed
`SymbolNotFound` failure. -/
theorem C5_cex :
    load_ohlcv_data_tauri noStore ("EURUSD") = .ok [] ∧
    noStore ("EURUSD") = none := ⟨rfl, rfl⟩

/-- Claim C5, amended: the src app's `load_ohlcv_data` surfaces the
typed `SymbolNotFound` failure for a symbol with no stored data, while
the tauri app's converts the same situation to `Ok(empty list)`. -/
theorem C5_typed (core2 : String → Option (List OHLCV))
    (core : String → TimeFrame → Option (List OHLCV))
    (symbol timeframe : String) (tf : TimeFrame)
    (htf : TimeFrame.from_str timeframe = some tf) (hnone : core symbol tf = none)
    (hnone2 : core2 symbol = none) :
    load_ohlcv_data_src core symbol timeframe = .err ("SymbolNotFound") ∧
    load_ohlcv_data_tauri core2 symbol = .ok [] := by
  constructor
  · simp only [load_ohlcv_data_src, core_get_ohlcv, htf, hnone]
  · simp only [load_ohlcv_data_tauri, hnone2]

/-- Claim C5, witness: `C5_typed` on empty stores at symbol "EURUSD" /
"GBPUSD" and timeframe "H1". -/
theorem C5_witness :
    load_ohlcv_data_src noStore2 ("EURUSD") ("H1") = .err ("SymbolNotFound") ∧
    load_ohlcv_data_tauri noStore ("GBPUSD") = .ok [] :=
  C5_typed noStore noStore2 ("EURUSD") ("H1") .H1 rfl rfl rfl

/-- Claim C6: on a loaded session, `step_forward(k)` then
`step_backward(k)` restores the cursor whenever `i + k ≤ n - 1` (the
`Vec` length bound `n ≤ 2^64` rules the `usize` wrap out), and stepping
backward from index 0 keeps index 0. -/
theorem C6_roundtrip (st : ReplayState) (k : Nat) (h : st.data ≠ []) :
    (st.data.length ≤ USIZE → st.current_index + k ≤ st.data.length - 1 →
      (step_backward (step_forward st (some k)).2 (some k)).2.current_index = st.current_index) ∧
    (st.current_index = 0 → (step_backward st (some k)).2.current_index = 0) := by
  obtain ⟨sym, tf, data, i, sp, play⟩ := st
  rcases data with _ | ⟨c, cs⟩
  · exact absurd rfl h
  · constructor
    · intro hlen hk
      have hlen' : (c :: cs).length ≤ USIZE := hlen
      have hk' : i + k ≤ (c :: cs).length - 1 := hk
      have hA : (c :: cs).length = cs.length + 1 := rfl
      have hm : (i + k) % USIZE = i + k := Nat.mod_eq_of_lt (by omega)
      show min ((i + k) % USIZE) ((c :: cs).length - 1) - k = i
      rw [hm]
      omega
    · intro h0
      have h0' : i = 0 := h0
      show i - k = 0
      omega

/-- Claim C6, witness: `C6_roundtrip` with `k = 2` on a fresh 5-candle
session (cursor 0). -/
theorem C6_witness :
    (step_backward (step_forward (replayOn (mkSeries 5)) (some 2)).2 (some 2)).2.current_index
      = 0 ∧
    (step_backward (replayOn (mkSeries 5)) (some 2)).2.current_index = 0 :=
  ⟨(C6_roundtrip (replayOn (mkSeries 5)) 2 (by decide)).1 (by decide) (by decide),
   (C6_roundtrip (replayOn (mkSeries 5)) 2 (by decide)).2 rfl⟩

/-- Claim C7, counterexample: on a valid symbol/timeframe with a
3-candle series, the windowed read with `start_idx = 10`, `end_idx = 20`
does not succeed — the slice `&data[10 .. 20.min(3)]` panics, because
only the end of the range is clamped to the length. -/
theorem C7_cex :
    get_data_window core3 ("EURUSD") ("H1") 10 20 = .panicked ∧
    (mkSeries 3).length = 3 ∧ core3 ("EURUSD") .H1 = some (mkSeries 3) :=
  ⟨rfl, by decide, rfl⟩

/-- Claim C7, amended: the windowed read fails with `Invalid timeframe`
or `SymbolNotFound` on bad inputs; on a resolved series it returns the
sub-sequence with the end clamped to the length whenever
`start_idx ≤ min end_idx len`, and panics whenever `start_idx` exceeds
that clamped end. -/
theorem C7_window (core : String → TimeFrame → Option (List OHLCV))
    (symbol timeframe : String) (start_idx end_idx : Nat) :
    (TimeFrame.from_str timeframe = none →
      get_data_window core symbol timeframe start_idx end_idx =
        .err ("Invalid timeframe: " ++ timeframe)) ∧
    (∀ tf, TimeFrame.from_str timeframe = some tf → core symbol tf = none →
      get_data_window core symbol timeframe start_idx end_idx = .err ("SymbolNotFound")) ∧
    (∀ tf data, TimeFrame.from_str timeframe = some tf → core symbol tf = some data →
      start_idx ≤ min end_idx data.length →
      get_data_window core symbol timeframe start_idx end_idx =
        .ok (rustSlice data start_idx (min end_idx data.length))) ∧
    (∀ tf data, TimeFrame.from_str timeframe = some tf → core symbol tf = some data →
      min end_idx data.length < start_idx →
      get_data_window core symbol timeframe start_idx end_idx = .panicked) := by
  refine ⟨?_, ?_, ?_, ?_⟩
  · intro htf
    simp only [get_data_window, htf]
  · intro tf htf hnone
    simp only [get_data_window, core_get_ohlcv, htf, hnone]
  · intro tf data htf hdata hle
    simp only [get_data_window, core_get_ohlcv, htf, hdata]
    rw [if_pos hle]
  · intro tf data htf hdata hlt
    simp only [get_data_window, core_get_ohlcv, htf, hdata]
    rw [if_neg (by omega : ¬ start_idx ≤ min end_idx data.length)]

/-- Claim C7, witness: `C7_window` exercised on all four outcomes over
the 3-candle store. -/
theorem C7_witness :
    get_data_window core3 ("EURUSD") ("XX") 0 1 = .err ("Invalid timeframe: XX") ∧
    get_data_window core3 ("GBPUSD") ("H1") 0 1 = .err ("SymbolNotFound") ∧
    get_data_window core3 ("EURUSD") ("H1") 1 10 = .ok (rustSlice (mkSeries 3) 1 3) ∧
    get_data_window core3 ("EURUSD") ("H1") 5 10 = .panicked := by
  refine ⟨(C7_window core3 ("EURUSD") ("XX") 0 1).1 rfl,
    (C7_window core3 ("GBPUSD") ("H1") 0 1).2.1 .H1 rfl rfl,
    ?_, (C7_window core3 ("EURUSD") ("H1") 5 10).2.2.2 .H1 (mkSeries 3) rfl rfl (by decide)⟩
  exact (C7_window core3 ("EURUSD") ("H1") 1 10).2.2.1 .H1 (mkSeries 3) rfl rfl (by decide)

/-- Claim C8: every replay command that returns an `Err` — missing
symbol on load, empty session on start/step/seek — leaves the replay
state exactly as it was: no field is mutated on the error path. -/
theorem C8_err_frame (core : String → Option (List OHLCV)) (st : ReplayState)
    (symbol timeframe : String) (steps : Option Nat) (index : Nat) :
    (∀ m, (load_replay_session core st symbol timeframe).1 = .err m →
      (load_replay_session core st symbol timeframe).2 = st) ∧
    (∀ m, (start_replay st).1 = .err m → (start_replay st).2 = st) ∧
    (∀ m, (step_forward st steps).1 = .err m → (step_forward st steps).2 = st) ∧
    (∀ m, (step_backward st steps).1 = .err m → (step_backward st steps).2 = st) ∧
    (∀ m, (seek_to_index st index).1 = .err m → (seek_to_index st index).2 = st) := by
  refine ⟨?_, ?_, ?_, ?_, ?_⟩
  · intro m hm
    unfold load_replay_session at hm ⊢
    rcases hc : core symbol with _ | d
    · rfl
    · rw [hc] at hm
      rcases d with _ | ⟨c0, rest⟩ <;> simp at hm
  · intro m hm
    unfold start_replay at hm ⊢
    by_cases he : st.data.isEmpty
    · rw [if_pos he]
    · rw [if_neg he] at hm
      simp at hm
  · intro m hm
    unfold step_forward at hm ⊢
    rcases hd : st.data with _ | ⟨c, cs⟩
    · rfl
    · rw [hd] at hm
      simp at hm
  · intro m hm
    unfold step_backward at hm ⊢
    rcases hd : st.data with _ | ⟨c, cs⟩
    · rfl
    · rw [hd] at hm
      simp at hm
  · intro m hm
    unfold seek_to_index at hm ⊢
    rcases hd : st.data with _ | ⟨c, cs⟩
    · rfl
    · rw [hd] at hm
      simp at hm

/-- Claim C8, witness: `C8_err_frame` on the empty default state, where
all five commands return `Err` and leave the state untouched. -/
theorem C8_witness :
    (load_replay_session noStore ReplayState.init ("EURUSD") ("H1")).2 = ReplayState.init ∧
    (start_replay ReplayState.init).2 = ReplayState.init ∧
    (step_forward ReplayState.init (some 3)).2 = ReplayState.init ∧
    (step_backward ReplayState.init none).2 = ReplayState.init ∧
    (seek_to_index ReplayState.init 7).2 = ReplayState.init :=
  ⟨(C8_err_frame noStore ReplayState.init ("EURUSD") ("H1") (some 3) 7).1 ("No data found") rfl,
   (C8_err_frame noStore ReplayState.init ("EURUSD") ("H1") (some 3) 7).2.1
     ("No replay session loaded") rfl,
   (C8_err_frame noStore ReplayState.init ("EURUSD") ("H1") (some 3) 7).2.2.1
     ("No replay session") rfl,
   (C8_err_frame noStore ReplayState.init ("EURUSD") ("H1") none 7).2.2.2.1
     ("No replay session") rfl,
   (C8_err_frame noStore ReplayState.init ("EURUSD") ("H1") (some 3) 7).2.2.2.2
     ("No replay session") rfl⟩

/-- Claim C9: `stop_replay` returns `Ok` with exactly `is_playing` set
to false and `current_index` set to 0; data, symbol, timeframe and speed
are untouched — stopping is not unloading. -/
theorem C9_stop (st : ReplayState) :
    stop_replay st = (.ok (), { st with is_playing := false, current_index := 0 }) ∧
    (stop_replay st).2.data = st.data ∧
    (stop_replay st).2.symbol = st.symbol ∧
    (stop_replay st).2.timeframe = st.timeframe ∧
    (stop_replay st).2.speed = st.speed ∧
    (stop_replay st).2.is_playing = false ∧
    (stop_replay st).2.current_index = 0 :=
  ⟨rfl, rfl, rfl, rfl, rfl, rfl, rfl⟩

/-- Claim C10: every replay command preserves the cursor invariant — a
non-empty session keeps `current_index < data.length`, an empty one
keeps `current_index = 0` — so the cursor always denotes a candle of a
loaded session. -/
theorem C10_inv (core : String → Option (List OHLCV)) (st : ReplayState)
    (symbol timeframe : String) (steps : Option Nat) (index : Nat) (v : ℚ)
    (hinv : ReplayInv st) :
    ReplayInv (load_replay_session core st symbol timeframe).2 ∧
    ReplayInv (start_replay st).2 ∧
    ReplayInv (pause_replay st).2 ∧
    ReplayInv (stop_replay st).2 ∧
    ReplayInv (step_forward st steps).2 ∧
    ReplayInv (step_backward st steps).2 ∧
    ReplayInv (seek_to_index st index).2 ∧
    ReplayInv (set_replay_speed st v).2 := by
  obtain ⟨sym, tf, data, i, sp, play⟩ := st
  have hload : ReplayInv (load_replay_session core
      ⟨sym, tf, data, i, sp, play⟩ symbol timeframe).2 := by
    unfold load_replay_session
    rcases hc : core symbol with _ | d
    · exact hinv
    · rcases d with _ | ⟨c0, rest⟩
      · exact ⟨fun hne => absurd rfl hne, fun _ => rfl⟩
      · exact ⟨fun _ => Nat.succ_pos _, fun he => (List.cons_ne_nil _ _ he).elim⟩
  rcases data with _ | ⟨c, cs⟩
  · have hi0 : i = 0 := hinv.2 rfl
    subst hi0
    exact ⟨hload, hinv, ⟨fun hne => absurd rfl hne, fun _ => rfl⟩,
      ⟨fun hne => absurd rfl hne, fun _ => rfl⟩, hinv, hinv, hinv,
      ⟨fun hne => absurd rfl hne, fun _ => rfl⟩⟩
  · have hcur : i < (c :: cs).length := hinv.1 (List.cons_ne_nil c cs)
    refine ⟨hload, ?_, ?_, ?_, ?_, ?_, ?_, ?_⟩
    · exact ⟨fun _ => hcur, fun he => (List.cons_ne_nil _ _ he).elim⟩
    · exact ⟨fun _ => hcur, fun he => (List.cons_ne_nil _ _ he).elim⟩
    · exact ⟨fun _ => Nat.succ_pos _, fun he => (List.cons_ne_nil _ _ he).elim⟩
    · refine ⟨fun _ => ?_, fun he => (List.cons_ne_nil _ _ he).elim⟩
      show min ((i + steps.getD 1) % USIZE) ((c :: cs).length - 1) < (c :: cs).length
      have hmin := Nat.min_le_right ((i + steps.getD 1) % USIZE) ((c :: cs).length - 1)
      have hA : (c :: cs).length = cs.length + 1 := rfl
      omega
    · refine ⟨fun _ => ?_, fun he => (List.cons_ne_nil _ _ he).elim⟩
      show i - steps.getD 1 < (c :: cs).length
      omega
    · refine ⟨fun _ => ?_, fun he => (List.cons_ne_nil _ _ he).elim⟩
      show min index ((c :: cs).length - 1) < (c :: cs).length
      have hmin := Nat.min_le_right index ((c :: cs).length - 1)
      have hA : (c :: cs).length = cs.length + 1 := rfl
      omega
    · exact ⟨fun _ => hcur, fun he => (List.cons_ne_nil _ _ he).elim⟩

/-- Claim C10, witness: `C10_inv` on a fresh 5-candle session with an
out-of-range seek index and an out-of-range speed. -/
theorem C10_witness :
    ReplayInv (load_replay_session noStore (replayOn (mkSeries 5)) ("EURUSD") ("H1")).2 ∧
    ReplayInv (start_replay (replayOn (mkSeries 5))).2 ∧
    ReplayInv (pause_replay (replayOn (mkSeries 5))).2 ∧
    ReplayInv (stop_replay (replayOn (mkSeries 5))).2 ∧
    ReplayInv (step_forward (replayOn (mkSeries 5)) (some 3)).2 ∧
    ReplayInv (step_backward (replayOn (mkSeries 5)) (some 3)).2 ∧
    ReplayInv (seek_to_index (replayOn (mkSeries 5)) 9).2 ∧
    ReplayInv (set_replay_speed (replayOn (mkSeries 5)) 50).2 :=
  C10_inv noStore (replayOn (mkSeries 5)) ("EURUSD") ("H1") (some 3) 9 50 (by decide)

end ChartingFX
